import Mathlib

/-!
Shallow embedding of the flocking core of `src/native/sensor_processor/src/flocking.rs`
(with the supporting data types from `src/native/sensor_processor/src/lib.rs`).
Rust `f64` scalars are modelled as real numbers; each Rust function is translated
into a Lean function of the same name and structure, and the specification's
claims about them are proved or refuted below.
-/

noncomputable section

namespace Flocking

/-- Mirrors `DronePosition` in lib.rs: a point with `x`, `y`, `z` scalars. -/
structure DronePosition where
  x : ℝ
  y : ℝ
  z : ℝ

/-- Mirrors `DroneVelocity` in lib.rs: velocity components `vx`, `vy`, `vz`. -/
structure DroneVelocity where
  vx : ℝ
  vy : ℝ
  vz : ℝ

/-- Mirrors `DroneState` in lib.rs. -/
structure DroneState where
  id : String
  position : DronePosition
  velocity : DroneVelocity
  timestamp : ℕ

/-- Mirrors `FlockingParams` in flocking.rs. -/
structure FlockingParams where
  neighbor_radius : ℝ
  separation_radius : ℝ
  max_speed : ℝ
  max_force : ℝ
  separation_weight : ℝ
  alignment_weight : ℝ
  cohesion_weight : ℝ
  obstacle_avoidance_weight : ℝ

/-- Mirrors `impl Default for FlockingParams` in flocking.rs. -/
def FlockingParams.defaultParams : FlockingParams :=
  { neighbor_radius := 100
    separation_radius := 50
    max_speed := 50
    max_force := 10
    separation_weight := 2
    alignment_weight := 1
    cohesion_weight := 1
    obstacle_avoidance_weight := 3 }

/-- Mirrors `Vector3D` in flocking.rs. -/
@[ext]
structure Vector3D where
  x : ℝ
  y : ℝ
  z : ℝ

namespace Vector3D

/-- Mirrors `Vector3D::new`. -/
def new (x y z : ℝ) : Vector3D := ⟨x, y, z⟩

/-- Mirrors `Vector3D::zero`. -/
def zero : Vector3D := new 0 0 0

/-- Mirrors `Vector3D::magnitude`: `sqrt(x*x + y*y + z*z)`. -/
def magnitude (v : Vector3D) : ℝ :=
  Real.sqrt (v.x * v.x + v.y * v.y + v.z * v.z)

/-- Mirrors `Vector3D::normalize`: divide by the magnitude when it is
positive, otherwise return the zero vector. -/
def normalize (v : Vector3D) : Vector3D :=
  let mag := v.magnitude
  if mag > 0 then new (v.x / mag) (v.y / mag) (v.z / mag) else zero

/-- Mirrors `Vector3D::limit`: rescale to `max_magnitude` when the magnitude
exceeds it, otherwise return the vector unchanged. -/
def limit (v : Vector3D) (max_magnitude : ℝ) : Vector3D :=
  let mag := v.magnitude
  if mag > max_magnitude then
    let scale := max_magnitude / mag
    new (v.x * scale) (v.y * scale) (v.z * scale)
  else v

/-- Mirrors `Vector3D::add`. -/
def add (v other : Vector3D) : Vector3D :=
  new (v.x + other.x) (v.y + other.y) (v.z + other.z)

/-- Mirrors `Vector3D::subtract`. -/
def subtract (v other : Vector3D) : Vector3D :=
  new (v.x - other.x) (v.y - other.y) (v.z - other.z)

/-- Mirrors `Vector3D::multiply` (scalar multiplication). -/
def multiply (v : Vector3D) (scalar : ℝ) : Vector3D :=
  new (v.x * scalar) (v.y * scalar) (v.z * scalar)

/-- Mirrors `Vector3D::distance_to`. -/
def distance_to (v other : Vector3D) : ℝ :=
  let dx := v.x - other.x
  let dy := v.y - other.y
  let dz := v.z - other.z
  Real.sqrt (dx * dx + dy * dy + dz * dz)

/-- Mirrors `impl From<DronePosition> for Vector3D`. -/
def ofPosition (p : DronePosition) : Vector3D := new p.x p.y p.z

/-- Mirrors `impl From<DroneVelocity> for Vector3D`. -/
def ofVelocity (v : DroneVelocity) : Vector3D := new v.vx v.vy v.vz

end Vector3D

/-- Neighbor filter inlined in `calculate_boids_forces` (flocking.rs lines
113-120): keep the candidates within `neighbor_radius` of `position`,
boundary included. -/
def nearbyNeighbors (position : Vector3D) (neighbors : List DroneState)
    (neighbor_radius : ℝ) : List DroneState :=
  neighbors.filter fun neighbor =>
    position.distance_to (Vector3D.ofPosition neighbor.position) ≤ neighbor_radius

/-- Loop body of `calculate_separation` (flocking.rs lines 145-159): the
accumulator carries the running force sum and the contributing-neighbor count. -/
def sepAccum (position : Vector3D) (params : FlockingParams)
    (acc : Vector3D × ℕ) (neighbor : DroneState) : Vector3D × ℕ :=
  let neighbor_pos := Vector3D.ofPosition neighbor.position
  let distance := position.distance_to neighbor_pos
  if 0 < distance ∧ distance < params.separation_radius then
    let diff := position.subtract neighbor_pos
    let normalized_diff := diff.normalize
    let weighted_diff := normalized_diff.multiply (1 / distance)
    (acc.1.add weighted_diff, acc.2 + 1)
  else acc

/-- Mirrors `calculate_separation` in flocking.rs. -/
def calculate_separation (position : Vector3D) (neighbors : List DroneState)
    (params : FlockingParams) : Vector3D :=
  let r := neighbors.foldl (sepAccum position params) (Vector3D.zero, 0)
  if 0 < r.2 then
    let separation_force := r.1.multiply (1 / (r.2 : ℝ))
    if separation_force.magnitude > 0 then separation_force.normalize
    else Vector3D.zero
  else Vector3D.zero

/-- Mirrors `calculate_alignment` in flocking.rs. -/
def calculate_alignment (velocity : Vector3D) (neighbors : List DroneState)
    (_params : FlockingParams) : Vector3D :=
  if neighbors.isEmpty then Vector3D.zero
  else
    let sum := neighbors.foldl
      (fun acc neighbor => acc.add (Vector3D.ofVelocity neighbor.velocity))
      Vector3D.zero
    let avg_velocity := sum.multiply (1 / (neighbors.length : ℝ))
    let desired_velocity := avg_velocity.normalize
    let current_velocity := velocity.normalize
    desired_velocity.subtract current_velocity

/-- Mirrors `calculate_cohesion` in flocking.rs. -/
def calculate_cohesion (position : Vector3D) (neighbors : List DroneState)
    (_params : FlockingParams) : Vector3D :=
  if neighbors.isEmpty then Vector3D.zero
  else
    let sum := neighbors.foldl
      (fun acc neighbor => acc.add (Vector3D.ofPosition neighbor.position))
      Vector3D.zero
    let center_of_mass := sum.multiply (1 / (neighbors.length : ℝ))
    let desired_direction := center_of_mass.subtract position
    if desired_direction.magnitude > 0 then desired_direction.normalize
    else Vector3D.zero

/-- Mirrors `calculate_boids_forces` in flocking.rs: filter to the nearby
neighbors, compute the three rules, combine with the weights, then apply the
single terminal clamp. -/
def calculate_boids_forces (drone : DroneState) (neighbors : List DroneState)
    (params : FlockingParams) : Vector3D :=
  let position := Vector3D.ofPosition drone.position
  let velocity := Vector3D.ofVelocity drone.velocity
  let nearby_neighbors := nearbyNeighbors position neighbors params.neighbor_radius
  let separation := calculate_separation position nearby_neighbors params
  let alignment := calculate_alignment velocity nearby_neighbors params
  let cohesion := calculate_cohesion position nearby_neighbors params
  let total_force :=
    ((separation.multiply params.separation_weight).add
      (alignment.multiply params.alignment_weight)).add
      (cohesion.multiply params.cohesion_weight)
  total_force.limit params.max_force

/-- Mirrors `apply_boundary_forces` in flocking.rs: the three axes are handled
independently; each `if`/`else if` block becomes a nested conditional on the
corresponding component. -/
def apply_boundary_forces (position : Vector3D) (_velocity : Vector3D)
    (world_bounds : ℝ × ℝ × ℝ) (boundary_margin : ℝ) : Vector3D :=
  let x_bound := world_bounds.1
  let y_bound := world_bounds.2.1
  let z_bound := world_bounds.2.2
  let fx :=
    if position.x < -x_bound / 2 + boundary_margin then
      ((-x_bound / 2 + boundary_margin) - position.x) * 0.1
    else if position.x > x_bound / 2 - boundary_margin then
      -((position.x - (x_bound / 2 - boundary_margin)) * 0.1)
    else 0
  let fy :=
    if position.y < -y_bound / 2 + boundary_margin then
      ((-y_bound / 2 + boundary_margin) - position.y) * 0.1
    else if position.y > y_bound / 2 - boundary_margin then
      -((position.y - (y_bound / 2 - boundary_margin)) * 0.1)
    else 0
  let fz :=
    if position.z < boundary_margin then
      (boundary_margin - position.z) * 0.2
    else if position.z > z_bound - boundary_margin then
      -((position.z - (z_bound - boundary_margin)) * 0.1)
    else 0
  Vector3D.new fx fy fz

/-- Loop body of `calculate_obstacle_avoidance` (flocking.rs lines 272-287). -/
def avoidAccum (position : Vector3D) (avoidance_distance : ℝ)
    (acc : Vector3D) (obstacle : ℝ × ℝ × ℝ × ℝ) : Vector3D :=
  let obstacle_pos := Vector3D.new obstacle.1 obstacle.2.1 obstacle.2.2.1
  let radius := obstacle.2.2.2
  let distance := position.distance_to obstacle_pos
  let danger_distance := radius + avoidance_distance
  if distance < danger_distance ∧ distance > 0 then
    let avoidance_dir := (position.subtract obstacle_pos).normalize
    let strength := (danger_distance - distance) / danger_distance
    let weighted_avoidance := avoidance_dir.multiply (strength * 2)
    acc.add weighted_avoidance
  else acc

/-- Mirrors `calculate_obstacle_avoidance` in flocking.rs. -/
def calculate_obstacle_avoidance (position : Vector3D) (_velocity : Vector3D)
    (obstacles : List (ℝ × ℝ × ℝ × ℝ)) (avoidance_distance : ℝ) : Vector3D :=
  obstacles.foldl (avoidAccum position avoidance_distance) Vector3D.zero

/-- Mirrors `integrate_motion` in flocking.rs: velocity is updated and clamped
first, then the position is advanced with the clamped velocity. -/
def integrate_motion (position velocity acceleration : Vector3D)
    (dt max_speed : ℝ) : Vector3D × Vector3D :=
  let new_velocity := velocity.add (acceleration.multiply dt)
  let limited_velocity := new_velocity.limit max_speed
  let new_position := position.add (limited_velocity.multiply dt)
  (new_position, limited_velocity)

namespace Vector3D

lemma magnitude_nonneg (v : Vector3D) : 0 ≤ v.magnitude := Real.sqrt_nonneg _

lemma magnitude_zero_vec : (zero : Vector3D).magnitude = 0 := by
  simp [zero, new, magnitude]

lemma zero_add_vec (v : Vector3D) : zero.add v = v := by
  ext <;> simp [zero, new, add]

lemma magnitude_multiply (v : Vector3D) (s : ℝ) :
    (v.multiply s).magnitude = |s| * v.magnitude := by
  have h : (v.multiply s).magnitude
      = Real.sqrt ((s * s) * (v.x * v.x + v.y * v.y + v.z * v.z)) := by
    simp only [multiply, new, magnitude]
    congr 1
    ring
  rw [h, Real.sqrt_mul (mul_self_nonneg s) _, Real.sqrt_mul_self_eq_abs]
  rfl

lemma limit_eq (v : Vector3D) (m : ℝ) :
    v.limit m = if v.magnitude > m then v.multiply (m / v.magnitude) else v := rfl

lemma limit_of_le (v : Vector3D) (m : ℝ) (h : v.magnitude ≤ m) : v.limit m = v := by
  rw [limit_eq, if_neg (not_lt.mpr h)]

lemma limit_magnitude_of_lt (v : Vector3D) (m : ℝ) (hm : 0 ≤ m)
    (h : m < v.magnitude) : (v.limit m).magnitude = m := by
  have hpos : 0 < v.magnitude := lt_of_le_of_lt hm h
  have hne : v.magnitude ≠ 0 := hpos.ne'
  rw [limit_eq, if_pos h, magnitude_multiply,
    abs_of_nonneg (div_nonneg hm hpos.le)]
  field_simp

lemma limit_magnitude_le (v : Vector3D) (m : ℝ) (hm : 0 ≤ m) :
    (v.limit m).magnitude ≤ m := by
  rcases le_or_lt v.magnitude m with h | h
  · rw [limit_of_le v m h]; exact h
  · rw [limit_magnitude_of_lt v m hm h]

lemma magnitude_new_x (a : ℝ) : (new a 0 0).magnitude = |a| := by
  simp only [new, magnitude]
  rw [show a * a + 0 * 0 + 0 * 0 = a * a by ring, Real.sqrt_mul_self_eq_abs]

lemma distance_to_new_x (a b : ℝ) :
    (new a 0 0).distance_to (new b 0 0) = |a - b| := by
  simp only [new, distance_to]
  rw [show (a - b) * (a - b) + (0 - 0) * (0 - 0) + (0 - 0) * (0 - 0)
      = (a - b) * (a - b) by ring, Real.sqrt_mul_self_eq_abs]

lemma normalize_new_x (a : ℝ) (ha : 0 < a) :
    (new a 0 0).normalize = new 1 0 0 := by
  have hm : (new a 0 0).magnitude = a := by rw [magnitude_new_x, abs_of_pos ha]
  simp only [normalize, hm]
  rw [if_pos ha]
  simp [new, div_self ha.ne']

end Vector3D

/-- Concrete agent fixture used by witness theorems. -/
def droneA : DroneState := ⟨"a", ⟨0, 0, 0⟩, ⟨0, 0, 0⟩, 0⟩

lemma boundary_x (p v : Vector3D) (xb yb zb m : ℝ) :
    (apply_boundary_forces p v (xb, yb, zb) m).x
      = if p.x < -xb / 2 + m then ((-xb / 2 + m) - p.x) * 0.1
        else if p.x > xb / 2 - m then -((p.x - (xb / 2 - m)) * 0.1)
        else 0 := rfl

lemma boundary_y (p v : Vector3D) (xb yb zb m : ℝ) :
    (apply_boundary_forces p v (xb, yb, zb) m).y
      = if p.y < -yb / 2 + m then ((-yb / 2 + m) - p.y) * 0.1
        else if p.y > yb / 2 - m then -((p.y - (yb / 2 - m)) * 0.1)
        else 0 := rfl

lemma boundary_z (p v : Vector3D) (xb yb zb m : ℝ) :
    (apply_boundary_forces p v (xb, yb, zb) m).z
      = if p.z < m then (m - p.z) * 0.2
        else if p.z > zb - m then -((p.z - (zb - m)) * 0.1)
        else 0 := rfl

lemma ne_zero_of_x_ne (w : Vector3D) (h : w.x ≠ 0) : w ≠ Vector3D.zero :=
  fun he => h (by rw [he]; rfl)

lemma ne_zero_of_y_ne (w : Vector3D) (h : w.y ≠ 0) : w ≠ Vector3D.zero :=
  fun he => h (by rw [he]; rfl)

lemma ne_zero_of_z_ne (w : Vector3D) (h : w.z ≠ 0) : w ≠ Vector3D.zero :=
  fun he => h (by rw [he]; rfl)

lemma avoidance_single (p v : Vector3D) (ox oy oz r a : ℝ)
    (h1 : 0 < p.distance_to (Vector3D.new ox oy oz))
    (h2 : p.distance_to (Vector3D.new ox oy oz) < r + a) :
    calculate_obstacle_avoidance p v [(ox, oy, oz, r)] a
      = ((p.subtract (Vector3D.new ox oy oz)).normalize).multiply
          (((r + a) - p.distance_to (Vector3D.new ox oy oz)) / (r + a) * 2) := by
  simp only [calculate_obstacle_avoidance, List.foldl_cons, List.foldl_nil, avoidAccum]
  rw [if_pos ⟨h2, h1⟩]
  exact Vector3D.zero_add_vec _

lemma avoidance_single_boundary (p v : Vector3D) (ox oy oz r a : ℝ)
    (h : p.distance_to (Vector3D.new ox oy oz) = r + a) :
    calculate_obstacle_avoidance p v [(ox, oy, oz, r)] a = Vector3D.zero := by
  simp only [calculate_obstacle_avoidance, List.foldl_cons, List.foldl_nil, avoidAccum]
  rw [if_neg]
  rintro ⟨hlt, -⟩
  rw [h] at hlt
  exact lt_irrefl _ hlt

/-- Claim C3 is false as stated: at `v = (1,0,0)` and `m = -1` the clamp
rescales by a negative factor and the result has magnitude `1 > -1`, so
`magnitude(limit(v, m)) <= m` fails for a negative `m`. -/
theorem C3_counterexample :
    ¬ (((Vector3D.new 1 0 0).limit (-1)).magnitude ≤ -1) := by
  have h1 : (Vector3D.new 1 0 0).magnitude = 1 := by
    rw [Vector3D.magnitude_new_x]; norm_num
  have h2 : (Vector3D.new 1 0 0).limit (-1) = Vector3D.new (-1) 0 0 := by
    rw [Vector3D.limit_eq, if_pos (by rw [h1]; norm_num : (Vector3D.new 1 0 0).magnitude > -1)]
    rw [h1]
    ext <;> norm_num [Vector3D.multiply, Vector3D.new]
  rw [h2, Vector3D.magnitude_new_x]
  norm_num

/-- Claim C3 (amended to nonnegative bounds): for every vector `v` and every
scalar `m ≥ 0`, `magnitude(limit(v, m)) ≤ m`; if `magnitude(v) ≤ m` then
`limit(v, m)` returns `v` unchanged; and when `magnitude(v) > m`, `limit`
scales `v` to magnitude exactly `m`. -/
theorem C3_limit_bounds (v : Vector3D) (m : ℝ) (hm : 0 ≤ m) :
    (v.limit m).magnitude ≤ m
    ∧ (v.magnitude ≤ m → v.limit m = v)
    ∧ (m < v.magnitude → (v.limit m).magnitude = m) :=
  ⟨Vector3D.limit_magnitude_le v m hm, Vector3D.limit_of_le v m,
    Vector3D.limit_magnitude_of_lt v m hm⟩

/-- Witness for C3: at `v = (1,0,0)` and `m = 2` the hypotheses hold and the
vector is within the bound, so `limit` returns it unchanged. -/
theorem C3_limit_bounds_witness :
    (0:ℝ) ≤ 2 ∧ (Vector3D.new 1 0 0).limit 2 = Vector3D.new 1 0 0 := by
  have hmag : (Vector3D.new 1 0 0).magnitude ≤ 2 := by
    rw [Vector3D.magnitude_new_x]; norm_num
  exact ⟨by norm_num, (C3_limit_bounds (Vector3D.new 1 0 0) 2 (by norm_num)).2.1 hmag⟩

/-- Claim C1: `calculate_boids_forces` returns exactly
`limit(separation*Wsep + alignment*Walign + cohesion*Wcoh, max_force)` — the
clamp applied once, after the weighted sum — and therefore (for a nonnegative
`max_force`, as the spec requires of every params value) the magnitude of the
result never exceeds `params.max_force`. -/
theorem C1_boids_single_clamp (drone : DroneState) (neighbors : List DroneState)
    (params : FlockingParams) (hm : 0 ≤ params.max_force) :
    calculate_boids_forces drone neighbors params =
      ((((calculate_separation (Vector3D.ofPosition drone.position)
            (nearbyNeighbors (Vector3D.ofPosition drone.position) neighbors
              params.neighbor_radius) params).multiply
          params.separation_weight).add
        ((calculate_alignment (Vector3D.ofVelocity drone.velocity)
            (nearbyNeighbors (Vector3D.ofPosition drone.position) neighbors
              params.neighbor_radius) params).multiply
          params.alignment_weight)).add
        ((calculate_cohesion (Vector3D.ofPosition drone.position)
            (nearbyNeighbors (Vector3D.ofPosition drone.position) neighbors
              params.neighbor_radius) params).multiply
          params.cohesion_weight)).limit params.max_force
    ∧ (calculate_boids_forces drone neighbors params).magnitude
        ≤ params.max_force := by
  refine ⟨rfl, ?_⟩
  exact Vector3D.limit_magnitude_le _ _ hm

/-- Witness for C1: the default parameters have `max_force = 10 ≥ 0`, and the
steering force of an isolated agent is bounded by it. -/
theorem C1_boids_single_clamp_witness :
    (0:ℝ) ≤ FlockingParams.defaultParams.max_force ∧
    (calculate_boids_forces droneA [] FlockingParams.defaultParams).magnitude
      ≤ FlockingParams.defaultParams.max_force := by
  refine ⟨?_, (C1_boids_single_clamp droneA [] FlockingParams.defaultParams ?_).2⟩ <;>
    norm_num [FlockingParams.defaultParams]

/-- Claim C4 is false as stated for a negative time step: with `dt = -1`,
`max_speed = 1`, velocity `(1,0,0)` and zero acceleration, the displacement
has magnitude `1`, which exceeds `max_speed * dt = -1`. -/
theorem C4_counterexample :
    ¬ (((integrate_motion Vector3D.zero (Vector3D.new 1 0 0) Vector3D.zero
          (-1) 1).1.subtract Vector3D.zero).magnitude ≤ 1 * (-1)) := by
  have hv : (Vector3D.new 1 0 0).add (Vector3D.zero.multiply (-1))
      = Vector3D.new 1 0 0 := by
    ext <;> norm_num [Vector3D.new, Vector3D.zero, Vector3D.add, Vector3D.multiply]
  have hlim : (Vector3D.new 1 0 0).limit 1 = Vector3D.new 1 0 0 :=
    Vector3D.limit_of_le _ _ (by rw [Vector3D.magnitude_new_x]; norm_num)
  have hd : (integrate_motion Vector3D.zero (Vector3D.new 1 0 0) Vector3D.zero
      (-1) 1).1.subtract Vector3D.zero = Vector3D.new (-1) 0 0 := by
    simp only [integrate_motion, hv, hlim]
    ext <;> norm_num [Vector3D.new, Vector3D.zero, Vector3D.add,
      Vector3D.multiply, Vector3D.subtract]
  rw [hd, Vector3D.magnitude_new_x]
  norm_num

/-- Claim C4 (amended to nonnegative `dt` and `max_speed`): `integrate_motion`
computes `velocity' = limit(velocity + acceleration*dt, max_speed)` first, then
`position' = position + velocity'*dt`, returns both, and when `0 ≤ dt` and
`0 ≤ max_speed` the displacement magnitude is at most `max_speed * dt`. -/
theorem C4_integration_order (p v a : Vector3D) (dt ms : ℝ)
    (hdt : 0 ≤ dt) (hms : 0 ≤ ms) :
    integrate_motion p v a dt ms
      = (p.add (((v.add (a.multiply dt)).limit ms).multiply dt),
         (v.add (a.multiply dt)).limit ms)
    ∧ ((integrate_motion p v a dt ms).1.subtract p).magnitude ≤ ms * dt := by
  refine ⟨rfl, ?_⟩
  have hdisp : (integrate_motion p v a dt ms).1.subtract p
      = ((v.add (a.multiply dt)).limit ms).multiply dt := by
    show (p.add (((v.add (a.multiply dt)).limit ms).multiply dt)).subtract p
        = ((v.add (a.multiply dt)).limit ms).multiply dt
    generalize ((v.add (a.multiply dt)).limit ms).multiply dt = w
    ext <;> simp [Vector3D.add, Vector3D.subtract, Vector3D.new]
  rw [hdisp, Vector3D.magnitude_multiply, abs_of_nonneg hdt]
  calc dt * ((v.add (a.multiply dt)).limit ms).magnitude
      ≤ dt * ms :=
        mul_le_mul_of_nonneg_left (Vector3D.limit_magnitude_le _ _ hms) hdt
    _ = ms * dt := mul_comm _ _

/-- Witness for C4: the spec's own integration example, `dt = 1` and
`max_speed = 5`, with acceleration `(10,0,0)` from rest. -/
theorem C4_integration_order_witness :
    (0:ℝ) ≤ 1 ∧ (0:ℝ) ≤ 5 ∧
    ((integrate_motion Vector3D.zero Vector3D.zero (Vector3D.new 10 0 0)
      1 5).1.subtract Vector3D.zero).magnitude ≤ 5 * 1 :=
  ⟨by norm_num, by norm_num,
    (C4_integration_order Vector3D.zero Vector3D.zero (Vector3D.new 10 0 0) 1 5
      (by norm_num) (by norm_num)).2⟩

/-- Claim C9: `apply_boundary_forces` and `calculate_obstacle_avoidance`
ignore their velocity argument — calls differing only in the velocity return
equal vectors. -/
theorem C9_velocity_independent (p v1 v2 : Vector3D) (wb : ℝ × ℝ × ℝ) (m : ℝ)
    (obstacles : List (ℝ × ℝ × ℝ × ℝ)) (a : ℝ) :
    apply_boundary_forces p v1 wb m = apply_boundary_forces p v2 wb m
    ∧ calculate_obstacle_avoidance p v1 obstacles a
      = calculate_obstacle_avoidance p v2 obstacles a :=
  ⟨rfl, rfl⟩

/-- Claim C5: the vertical axis of `apply_boundary_forces` is asymmetric — the
floor check triggers whenever `z` is below the margin threshold (for every
configured bound `zb`, so the floor sits at elevation zero rather than at a
band above the lower extent) with coefficient `0.2`, while the ceiling and the
four lateral faces apply `0.1` times the penetration depth. -/
theorem C5_floor_asymmetry (p v : Vector3D) (xb yb zb m : ℝ) :
    (p.z < m → (apply_boundary_forces p v (xb, yb, zb) m).z = (m - p.z) * 0.2)
    ∧ (m ≤ p.z → zb - m < p.z →
        (apply_boundary_forces p v (xb, yb, zb) m).z = -((p.z - (zb - m)) * 0.1))
    ∧ (p.x < -xb / 2 + m →
        (apply_boundary_forces p v (xb, yb, zb) m).x = ((-xb / 2 + m) - p.x) * 0.1)
    ∧ (-xb / 2 + m ≤ p.x → xb / 2 - m < p.x →
        (apply_boundary_forces p v (xb, yb, zb) m).x = -((p.x - (xb / 2 - m)) * 0.1))
    ∧ (p.y < -yb / 2 + m →
        (apply_boundary_forces p v (xb, yb, zb) m).y = ((-yb / 2 + m) - p.y) * 0.1)
    ∧ (-yb / 2 + m ≤ p.y → yb / 2 - m < p.y →
        (apply_boundary_forces p v (xb, yb, zb) m).y = -((p.y - (yb / 2 - m)) * 0.1)) := by
  refine ⟨?_, ?_, ?_, ?_, ?_, ?_⟩
  · intro h
    rw [boundary_z, if_pos h]
  · intro h1 h2
    rw [boundary_z, if_neg (not_lt.mpr h1), if_pos h2]
  · intro h
    rw [boundary_x, if_pos h]
  · intro h1 h2
    rw [boundary_x, if_neg (not_lt.mpr h1), if_pos h2]
  · intro h
    rw [boundary_y, if_pos h]
  · intro h1 h2
    rw [boundary_y, if_neg (not_lt.mpr h1), if_pos h2]

/-- Witness for C5: an agent at the origin with margin `1` in a `10×10×10`
world is below the floor threshold and feels the `0.2`-weighted floor force. -/
theorem C5_floor_asymmetry_witness :
    (Vector3D.new 0 0 0).z < 1 ∧
    (apply_boundary_forces (Vector3D.new 0 0 0) Vector3D.zero (10, 10, 10) 1).z
      = (1 - (Vector3D.new 0 0 0).z) * 0.2 := by
  have hz : (Vector3D.new 0 0 0).z < 1 := by norm_num [Vector3D.new]
  exact ⟨hz, (C5_floor_asymmetry (Vector3D.new 0 0 0) Vector3D.zero 10 10 10 1).1 hz⟩

/-- Claim C6: `apply_boundary_forces` returns the zero vector when every
coordinate lies on or inside its margin thresholds (in particular exactly on
a threshold, the boundary of the triggering strict inequality), and returns a
nonzero vector whenever some coordinate lies strictly inside a margin band. -/
theorem C6_margin_threshold (p v : Vector3D) (xb yb zb m : ℝ) :
    (-xb / 2 + m ≤ p.x → p.x ≤ xb / 2 - m →
     -yb / 2 + m ≤ p.y → p.y ≤ yb / 2 - m →
     m ≤ p.z → p.z ≤ zb - m →
     apply_boundary_forces p v (xb, yb, zb) m = Vector3D.zero)
    ∧ (p.x < -xb / 2 + m → apply_boundary_forces p v (xb, yb, zb) m ≠ Vector3D.zero)
    ∧ (xb / 2 - m < p.x → apply_boundary_forces p v (xb, yb, zb) m ≠ Vector3D.zero)
    ∧ (p.y < -yb / 2 + m → apply_boundary_forces p v (xb, yb, zb) m ≠ Vector3D.zero)
    ∧ (yb / 2 - m < p.y → apply_boundary_forces p v (xb, yb, zb) m ≠ Vector3D.zero)
    ∧ (p.z < m → apply_boundary_forces p v (xb, yb, zb) m ≠ Vector3D.zero)
    ∧ (zb - m < p.z → apply_boundary_forces p v (xb, yb, zb) m ≠ Vector3D.zero) := by
  have c01 : (0:ℝ) < 0.1 := by norm_num
  have c02 : (0:ℝ) < 0.2 := by norm_num
  refine ⟨?_, ?_, ?_, ?_, ?_, ?_, ?_⟩
  · intro hx1 hx2 hy1 hy2 hz1 hz2
    ext
    · rw [boundary_x, if_neg (not_lt.mpr hx1), if_neg (not_lt.mpr hx2)]; rfl
    · rw [boundary_y, if_neg (not_lt.mpr hy1), if_neg (not_lt.mpr hy2)]; rfl
    · rw [boundary_z, if_neg (not_lt.mpr hz1), if_neg (not_lt.mpr hz2)]; rfl
  · intro h
    apply ne_zero_of_x_ne
    rw [boundary_x, if_pos h]
    exact (mul_pos (sub_pos.mpr h) c01).ne'
  · intro h
    apply ne_zero_of_x_ne
    rw [boundary_x]
    by_cases hlow : p.x < -xb / 2 + m
    · rw [if_pos hlow]
      exact (mul_pos (sub_pos.mpr hlow) c01).ne'
    · rw [if_neg hlow, if_pos h]
      exact neg_ne_zero.mpr (mul_pos (sub_pos.mpr h) c01).ne'
  · intro h
    apply ne_zero_of_y_ne
    rw [boundary_y, if_pos h]
    exact (mul_pos (sub_pos.mpr h) c01).ne'
  · intro h
    apply ne_zero_of_y_ne
    rw [boundary_y]
    by_cases hlow : p.y < -yb / 2 + m
    · rw [if_pos hlow]
      exact (mul_pos (sub_pos.mpr hlow) c01).ne'
    · rw [if_neg hlow, if_pos h]
      exact neg_ne_zero.mpr (mul_pos (sub_pos.mpr h) c01).ne'
  · intro h
    apply ne_zero_of_z_ne
    rw [boundary_z, if_pos h]
    exact (mul_pos (sub_pos.mpr h) c02).ne'
  · intro h
    apply ne_zero_of_z_ne
    rw [boundary_z]
    by_cases hlow : p.z < m
    · rw [if_pos hlow]
      exact (mul_pos (sub_pos.mpr hlow) c02).ne'
    · rw [if_neg hlow, if_pos h]
      exact neg_ne_zero.mpr (mul_pos (sub_pos.mpr h) c01).ne'

/-- Witness for C6: in a `10×10×10` world with margin `1`, the position
`(-4, 0, 5)` lies exactly on the lower-x threshold and receives zero force,
while `(-5, 0, 5)` is strictly inside the lower-x margin band and receives a
nonzero force. -/
theorem C6_margin_threshold_witness :
    apply_boundary_forces (Vector3D.new (-4) 0 5) Vector3D.zero (10, 10, 10) 1
      = Vector3D.zero
    ∧ apply_boundary_forces (Vector3D.new (-5) 0 5) Vector3D.zero (10, 10, 10) 1
      ≠ Vector3D.zero := by
  constructor
  · exact (C6_margin_threshold (Vector3D.new (-4) 0 5) Vector3D.zero 10 10 10 1).1
      (by norm_num [Vector3D.new]) (by norm_num [Vector3D.new])
      (by norm_num [Vector3D.new]) (by norm_num [Vector3D.new])
      (by norm_num [Vector3D.new]) (by norm_num [Vector3D.new])
  · exact (C6_margin_threshold (Vector3D.new (-5) 0 5) Vector3D.zero 10 10 10 1).2.1
      (by norm_num [Vector3D.new])

/-- Claim C2 is false at the obstacle's surface: an agent at `(1,0,0)` sits at
distance `1` from an obstacle of radius `1` centered at the origin (distance
equal to the radius, i.e. on the surface); with `avoidance_distance = 1` the
code returns the unit vector scaled by `1`, not by `2` as the claimed ramp
endpoint requires. -/
theorem C2_counterexample :
    (Vector3D.new 1 0 0).distance_to (Vector3D.new 0 0 0) = 1
    ∧ calculate_obstacle_avoidance (Vector3D.new 1 0 0) Vector3D.zero
        [(0, 0, 0, 1)] 1 = Vector3D.new 1 0 0
    ∧ ((Vector3D.new 1 0 0).subtract (Vector3D.new 0 0 0)).normalize.multiply 2
        ≠ Vector3D.new 1 0 0 := by
  have hd : (Vector3D.new 1 0 0).distance_to (Vector3D.new 0 0 0) = 1 := by
    rw [Vector3D.distance_to_new_x]; norm_num
  have hsub : (Vector3D.new 1 0 0).subtract (Vector3D.new 0 0 0)
      = Vector3D.new 1 0 0 := by
    ext <;> norm_num [Vector3D.subtract, Vector3D.new]
  have hnorm : (Vector3D.new 1 0 0).normalize = Vector3D.new 1 0 0 :=
    Vector3D.normalize_new_x 1 one_pos
  refine ⟨hd, ?_, ?_⟩
  · have h := avoidance_single (Vector3D.new 1 0 0) Vector3D.zero 0 0 0 1 1
      (by rw [hd]; norm_num) (by rw [hd]; norm_num)
    rw [hd, hsub, hnorm] at h
    rw [h]
    ext <;> norm_num [Vector3D.multiply, Vector3D.new]
  · rw [hsub, hnorm]
    intro he
    have := congrArg Vector3D.x he
    simp [Vector3D.multiply, Vector3D.new] at this

/-- Claim C2 (amended): each obstacle with `0 < distance < radius +
avoidance_distance` contributes the unit vector from the obstacle center
toward the agent scaled by `2 * (danger_distance - distance) /
danger_distance` — a linear ramp that is `0` at the danger boundary
(where the obstacle stops contributing at all) and reaches `2` as the
distance tends to `0` (the obstacle's center); at the obstacle's surface
(`distance = radius`) the scale is `2 * avoidance_distance /
danger_distance`, not `2`. -/
theorem C2_obstacle_ramp (p v : Vector3D) (ox oy oz r a : ℝ) :
    (0 < p.distance_to (Vector3D.new ox oy oz) →
     p.distance_to (Vector3D.new ox oy oz) < r + a →
     calculate_obstacle_avoidance p v [(ox, oy, oz, r)] a
       = ((p.subtract (Vector3D.new ox oy oz)).normalize).multiply
           (2 * ((r + a) - p.distance_to (Vector3D.new ox oy oz)) / (r + a)))
    ∧ (p.distance_to (Vector3D.new ox oy oz) = r + a →
       calculate_obstacle_avoidance p v [(ox, oy, oz, r)] a = Vector3D.zero)
    ∧ (0 < r + a → 2 * ((r + a) - 0) / (r + a) = 2)
    ∧ 2 * ((r + a) - r) / (r + a) = 2 * a / (r + a) := by
  refine ⟨?_, avoidance_single_boundary p v ox oy oz r a, ?_, by ring⟩
  · intro h1 h2
    rw [avoidance_single p v ox oy oz r a h1 h2]
    congr 1
    ring
  · intro h
    field_simp

/-- Witness for C2: an agent at `(1,0,0)` against an obstacle of radius `1/2`
at the origin with `avoidance_distance = 3/2` (danger distance `2`, actual
distance `1`). -/
theorem C2_obstacle_ramp_witness :
    0 < (Vector3D.new 1 0 0).distance_to (Vector3D.new 0 0 0)
    ∧ (Vector3D.new 1 0 0).distance_to (Vector3D.new 0 0 0) < 1 / 2 + 3 / 2
    ∧ calculate_obstacle_avoidance (Vector3D.new 1 0 0) Vector3D.zero
        [(0, 0, 0, 1 / 2)] (3 / 2)
      = ((Vector3D.new 1 0 0).subtract (Vector3D.new 0 0 0)).normalize.multiply
          (2 * ((1 / 2 + 3 / 2) -
            (Vector3D.new 1 0 0).distance_to (Vector3D.new 0 0 0)) / (1 / 2 + 3 / 2)) := by
  have hd : (Vector3D.new 1 0 0).distance_to (Vector3D.new 0 0 0) = 1 := by
    rw [Vector3D.distance_to_new_x]; norm_num
  refine ⟨by rw [hd]; norm_num, by rw [hd]; norm_num, ?_⟩
  exact (C2_obstacle_ramp (Vector3D.new 1 0 0) Vector3D.zero 0 0 0 (1 / 2) (3 / 2)).1
    (by rw [hd]; norm_num) (by rw [hd]; norm_num)

/-- Concrete agent fixture at `(1,0,0)` used by witness theorems. -/
def droneB : DroneState := ⟨"b", ⟨1, 0, 0⟩, ⟨0, 0, 0⟩, 0⟩

/-- Concrete agent fixture at `(2,0,0)` used by witness theorems. -/
def droneC : DroneState := ⟨"c", ⟨2, 0, 0⟩, ⟨0, 0, 0⟩, 0⟩

/-- Parameter fixture with `separation_radius > neighbor_radius`, violating the
spec's assumed (unenforced) invariant. -/
def paramsNarrow : FlockingParams := ⟨1, 3, 50, 10, 2, 1, 1, 3⟩

/-- Claim C7: the degenerate numeric situations resolve to the zero vector
rather than failing — `normalize` of a zero-length vector, each of the three
rules on an empty neighbor set, an obstacle at exactly zero distance, and
zero-extent bounds at the origin all yield the zero vector. -/
theorem C7_total_degenerate :
    (∀ v : Vector3D, v.magnitude = 0 → v.normalize = Vector3D.zero)
    ∧ (∀ (pos : Vector3D) (params : FlockingParams),
        calculate_separation pos [] params = Vector3D.zero)
    ∧ (∀ (vel : Vector3D) (params : FlockingParams),
        calculate_alignment vel [] params = Vector3D.zero)
    ∧ (∀ (pos : Vector3D) (params : FlockingParams),
        calculate_cohesion pos [] params = Vector3D.zero)
    ∧ (∀ (p vel : Vector3D) (r a : ℝ),
        calculate_obstacle_avoidance p vel [(p.x, p.y, p.z, r)] a = Vector3D.zero)
    ∧ (∀ vel : Vector3D,
        apply_boundary_forces (Vector3D.new 0 0 0) vel (0, 0, 0) 0 = Vector3D.zero) := by
  refine ⟨?_, ?_, ?_, ?_, ?_, ?_⟩
  · intro v h
    simp only [Vector3D.normalize, h]
    rw [if_neg (lt_irrefl 0)]
  · intro pos params
    simp [calculate_separation]
  · intro vel params
    simp [calculate_alignment]
  · intro pos params
    simp [calculate_cohesion]
  · intro p vel r a
    have hd : p.distance_to (Vector3D.new p.x p.y p.z) = 0 := by
      simp [Vector3D.distance_to, Vector3D.new]
    simp only [calculate_obstacle_avoidance, List.foldl_cons, List.foldl_nil,
      avoidAccum]
    rw [if_neg]
    rintro ⟨-, hgt⟩
    rw [hd] at hgt
    exact lt_irrefl _ hgt
  · intro vel
    ext
    · rw [boundary_x]
      norm_num [Vector3D.new, Vector3D.zero]
    · rw [boundary_y]
      norm_num [Vector3D.new, Vector3D.zero]
    · rw [boundary_z]
      norm_num [Vector3D.new, Vector3D.zero]

/-- Witness for C7: the zero vector has magnitude zero and normalizes to the
zero vector. -/
theorem C7_total_degenerate_witness :
    Vector3D.zero.magnitude = 0 ∧ Vector3D.zero.normalize = Vector3D.zero :=
  ⟨Vector3D.magnitude_zero_vec,
    C7_total_degenerate.1 Vector3D.zero Vector3D.magnitude_zero_vec⟩

/-- Claim C8: the neighbor filter keeps exactly the candidates whose distance
to the querying position is at most `neighbor_radius`; in particular a
candidate at distance exactly `neighbor_radius` is kept. -/
theorem C8_neighbor_filter (position : Vector3D) (candidates : List DroneState)
    (r : ℝ) :
    (∀ n : DroneState, n ∈ nearbyNeighbors position candidates r ↔
        n ∈ candidates ∧ position.distance_to (Vector3D.ofPosition n.position) ≤ r)
    ∧ (∀ n : DroneState, n ∈ candidates →
        position.distance_to (Vector3D.ofPosition n.position) = r →
        n ∈ nearbyNeighbors position candidates r) := by
  have hmem : ∀ n : DroneState, n ∈ nearbyNeighbors position candidates r ↔
      n ∈ candidates ∧ position.distance_to (Vector3D.ofPosition n.position) ≤ r := by
    intro n
    simp [nearbyNeighbors, List.mem_filter]
  exact ⟨hmem, fun n hn hd => (hmem n).mpr ⟨hn, le_of_eq hd⟩⟩

/-- Witness for C8: a candidate at distance exactly `1` from the origin is
kept by the filter with `neighbor_radius = 1`. -/
theorem C8_neighbor_filter_witness :
    (Vector3D.new 0 0 0).distance_to (Vector3D.ofPosition droneB.position) = 1
    ∧ droneB ∈ nearbyNeighbors (Vector3D.new 0 0 0) [droneB] 1 := by
  have hd : (Vector3D.new 0 0 0).distance_to (Vector3D.ofPosition droneB.position) = 1 := by
    show (Vector3D.new 0 0 0).distance_to (Vector3D.new 1 0 0) = 1
    rw [Vector3D.distance_to_new_x]; norm_num
  exact ⟨hd,
    (C8_neighbor_filter (Vector3D.new 0 0 0) [droneB] 1).2 droneB (by simp) hd⟩

/-- Claim C10: `calculate_boids_forces` filters to `neighbor_radius` before
any rule runs, so an agent farther than `neighbor_radius` (even when closer
than `separation_radius`, i.e. when the assumed invariant `separation_radius
≤ neighbor_radius` is violated) is dropped by the filter, contributes nothing
to the separation force, and leaves the whole steering force unchanged. -/
theorem C10_out_of_range_no_contribution (drone neighbor : DroneState)
    (ns : List DroneState) (params : FlockingParams)
    (h1 : params.neighbor_radius <
      (Vector3D.ofPosition drone.position).distance_to
        (Vector3D.ofPosition neighbor.position))
    (h2 : (Vector3D.ofPosition drone.position).distance_to
        (Vector3D.ofPosition neighbor.position) < params.separation_radius) :
    nearbyNeighbors (Vector3D.ofPosition drone.position) (neighbor :: ns)
        params.neighbor_radius
      = nearbyNeighbors (Vector3D.ofPosition drone.position) ns
          params.neighbor_radius
    ∧ calculate_separation (Vector3D.ofPosition drone.position)
        (nearbyNeighbors (Vector3D.ofPosition drone.position) (neighbor :: ns)
          params.neighbor_radius) params
      = calculate_separation (Vector3D.ofPosition drone.position)
          (nearbyNeighbors (Vector3D.ofPosition drone.position) ns
            params.neighbor_radius) params
    ∧ calculate_boids_forces drone (neighbor :: ns) params
      = calculate_boids_forces drone ns params := by
  have hfilter : nearbyNeighbors (Vector3D.ofPosition drone.position)
      (neighbor :: ns) params.neighbor_radius
      = nearbyNeighbors (Vector3D.ofPosition drone.position) ns
          params.neighbor_radius := by
    simp only [nearbyNeighbors, List.filter_cons, decide_eq_true_eq]
    rw [if_neg (not_le.mpr h1)]
  refine ⟨hfilter, by rw [hfilter], ?_⟩
  simp only [calculate_boids_forces]
  rw [hfilter]

/-- Witness for C10: with `neighbor_radius = 1` and `separation_radius = 3`,
an agent at distance `2` is ignored entirely. -/
theorem C10_out_of_range_witness :
    paramsNarrow.neighbor_radius <
      (Vector3D.ofPosition droneA.position).distance_to
        (Vector3D.ofPosition droneC.position)
    ∧ (Vector3D.ofPosition droneA.position).distance_to
        (Vector3D.ofPosition droneC.position) < paramsNarrow.separation_radius
    ∧ calculate_boids_forces droneA [droneC] paramsNarrow
      = calculate_boids_forces droneA [] paramsNarrow := by
  have hd : (Vector3D.ofPosition droneA.position).distance_to
      (Vector3D.ofPosition droneC.position) = 2 := by
    show (Vector3D.new 0 0 0).distance_to (Vector3D.new 2 0 0) = 2
    rw [Vector3D.distance_to_new_x]; norm_num
  refine ⟨by rw [hd]; norm_num [paramsNarrow], by rw [hd]; norm_num [paramsNarrow], ?_⟩
  exact (C10_out_of_range_no_contribution droneA droneC [] paramsNarrow
    (by rw [hd]; norm_num [paramsNarrow])
    (by rw [hd]; norm_num [paramsNarrow])).2.2

end Flocking

end
